import Mathlib

/-!
Verification of the Oat shared-memory dataflow core and its collaborator
components.  The `Node` / `Sink` / `Source` synchronization triad is not
present in the visible sources (only its test scaffolding `Node_test.cpp`
and the `Viewer.h` consumer header are), so the triad is modelled from the
specification; the `Decorator` and `ArucoBoard` components are embedded
directly from their source files.
-/

namespace oat

/-- Modelled from the spec: capacity constant `Node::NUM_SLOTS` (= 10),
the fixed size of the slot table (spec sections 3 and 6; `Node.h` is not
among the visible sources, its test `Node_test.cpp` iterates to
`oat::Node::NUM_SLOTS`). -/
def NUM_SLOTS : Nat := 10

/-- Modelled from the spec: `sink_state` values {UNDEFINED, BOUND}
(spec section 3; `SinkState` is referenced by `Node_test.cpp`). -/
inductive SinkState where
  | UNDEFINED
  | BOUND
deriving DecidableEq, Repr

/-- Modelled from the spec: one slot record of the Node slot table:
`{ in_use: bool, read_done_barrier }` (spec section 3).  The read-done
barrier is modelled by the flag `read_done`: `true` means the slot has
raised its read-done barrier for the current `sample_counter` value
(nothing pending), `false` means the current sample is unacknowledged. -/
structure Slot where
  in_use : Bool
  read_done : Bool
deriving DecidableEq, Repr

/-- A default slot value used with `List.getD`: a free entry. -/
def freeSlot : Slot := { in_use := false, read_done := true }

/-- Modelled from the spec: the `Node` shared synchronization object:
slot table, sink-attachment state machine, monotonically increasing
sample counter (spec section 3).  The write-ready barrier is implicit in
`sample_counter` advancing. -/
structure Node where
  slots : List Slot
  sink_state : SinkState
  sample_counter : Nat
deriving DecidableEq, Repr

/-- Modelled from the spec: error taxonomy of the core (spec section 7). -/
inductive NodeError where
  | CapacityExceeded
  | OutOfRange
  | AlreadyBound
deriving DecidableEq, Repr

/-- Modelled from the spec: a fresh Node: all `NUM_SLOTS` slots free,
`sink_state` UNDEFINED, counter 0 (spec sections 3 and 8). -/
def freshNode : Node :=
  { slots := List.replicate NUM_SLOTS freeSlot
    sink_state := SinkState.UNDEFINED
    sample_counter := 0 }

/-- Modelled from the spec: `active_slot_count` / `source_ref_count()`:
the number of slots currently `in_use` (spec section 3). -/
def source_ref_count (n : Node) : Nat :=
  n.slots.countP (fun s => s.in_use)

/-- Modelled from the spec: `acquireSlot()`: finds the first free entry
in the slot table, marks it `in_use`, returns its index; fails with a
CapacityExceeded condition when the table has no free entry (spec
section 4.1).  A newly acquired slot starts with its read-done barrier
raised: a Source attaching after counter `k` was published is not
required to acknowledge `k` (spec section 5). -/
def acquireSlot (n : Node) : Except NodeError (Nat × Node) :=
  match n.slots.findIdx? (fun s => !s.in_use) with
  | some i =>
      Except.ok (i, { n with slots := n.slots.set i { in_use := true, read_done := true } })
  | none => Except.error NodeError.CapacityExceeded

/-- Modelled from the spec: `releaseSlot(index)`: marks the entry free;
an out-of-range or never-acquired index is a harmless no-op (spec
section 4.1).  `List.set` leaves the list unchanged for an out-of-range
index. -/
def releaseSlot (n : Node) (index : Nat) : Node :=
  { n with slots := n.slots.set index { n.slots.getD index freeSlot with in_use := false } }

/-- Modelled from the spec: `read_barrier(index)`: returns the read-done
barrier of the given slot; fails with an OutOfRange condition when
`index < 0` or `index >= active_slot_count` (spec section 4.1; the
index is a C++ `int`, hence `Int` here). -/
def read_barrier (n : Node) (index : Int) : Except NodeError Bool :=
  if index < 0 ∨ (source_ref_count n : Int) ≤ index then
    Except.error NodeError.OutOfRange
  else
    Except.ok ((n.slots.getD index.toNat freeSlot).read_done)

/-- Modelled from the spec: `bindSink()`: transitions `sink_state` from
UNDEFINED to BOUND on the first sink attach; a second sink attach fails
with an AlreadyBound condition (spec sections 4.1 and 7). -/
def bindSink (n : Node) : Except NodeError Node :=
  match n.sink_state with
  | SinkState.UNDEFINED => Except.ok { n with sink_state := SinkState.BOUND }
  | SinkState.BOUND => Except.error NodeError.AlreadyBound

/-- Modelled from the spec: sink detach: BOUND to UNDEFINED, allowing a
future process to rebind the same named channel (spec section 4.1). -/
def unbindSink (n : Node) : Node :=
  { n with sink_state := SinkState.UNDEFINED }

/-- N sequential `acquireSlot()` calls, propagating the first failure. -/
def acquireN : Nat → Node → Except NodeError Node
  | 0, n => Except.ok n
  | k + 1, n => (acquireSlot n).bind (fun p => acquireN k p.2)

/-- Modelled from the spec: a Node together with the shared sample
buffer of payload type T (spec section 3: the buffer is exclusively
written by the Sink, read-only to Sources during their read window). -/
structure Channel (T : Type) where
  node : Node
  buffer : T

/-- Modelled from the spec: the condition under which the Sink may
reuse (overwrite) the shared buffer: every `in_use` slot has raised its
read-done barrier for the prior counter value (spec section 5). -/
def publishEnabled (n : Node) : Bool :=
  n.slots.all (fun s => !s.in_use || s.read_done)

/-- Modelled from the spec: `Sink<T>::publish(sample)` (spec sections
4.2 and 5): suspends until every attached slot's read-done barrier for
the prior counter value has been raised; then writes `sample` into the
shared buffer, increments `sample_counter` and raises the write-ready
barrier, after which every `in_use` slot owes a read-done for the new
counter value.  `none` models a blocked publish (no progress). -/
def publish {T : Type} (c : Channel T) (sample : T) : Option (Channel T) :=
  if publishEnabled c.node then
    some { node := { c.node with
             sample_counter := c.node.sample_counter + 1
             slots := c.node.slots.map
               (fun s => if s.in_use then { s with read_done := false } else s) }
           buffer := sample }
  else none

/-- Modelled from the spec: `Source<T>::get_value()` for the Source
holding slot `i` (spec section 4.3): blocks until `sample_counter`
advances past the last value this consumer observed (modelled: the
slot's read-done barrier is down, i.e. a sample is pending), copies the
buffer, raises its own read-done barrier, and returns the sample
together with the observed `sample_counter`.  `none` models a blocked
wait (no new data) or an unattached slot. -/
def get_value {T : Type} (c : Channel T) (i : Nat) : Option (T × Nat × Channel T) :=
  let s := c.node.slots.getD i freeSlot
  if s.in_use && !s.read_done then
    some (c.buffer, c.node.sample_counter,
      { c with node := { c.node with
          slots := c.node.slots.set i { s with read_done := true } } })
  else none

/-- Modelled from the spec: the events that can occur on one channel
(spec section 5): a publish by the Sink, a `get_value` by the Source
holding slot `i` (which raises that slot's read-done barrier), a
consumer attach, and a consumer detach. -/
inductive Step (T : Type) where
  | publishStep (sample : T)
  | readStep (i : Nat)
  | acquireStep
  | releaseStep (i : Nat)

/-- Whether a step is an action of the Source holding slot `i`: its
`get_value` (raising the read-done barrier) or its detach. -/
def touches {T : Type} (i : Nat) : Step T → Bool
  | Step.readStep j => j == i
  | Step.releaseStep j => j == i
  | _ => false

/-- Small-step semantics of a channel: `none` when the step is blocked
or fails. -/
def applyStep {T : Type} (c : Channel T) : Step T → Option (Channel T)
  | Step.publishStep x => publish c x
  | Step.readStep i => (get_value c i).map (fun r => r.2.2)
  | Step.acquireStep =>
      match acquireSlot c.node with
      | Except.ok p => some { c with node := p.2 }
      | Except.error _ => none
  | Step.releaseStep i => some { c with node := releaseSlot c.node i }

/-- Execution of a trace of steps, each of which must actually fire. -/
inductive Reaches {T : Type} : Channel T → List (Step T) → Channel T → Prop where
  | nil (c : Channel T) : Reaches c [] c
  | cons {c c2 c3 : Channel T} {s : Step T} {tr : List (Step T)} :
      applyStep c s = some c2 → Reaches c2 tr c3 → Reaches c (s :: tr) c3

/-- Concrete channel used by witnesses: one attached Source (slot 0)
that has not raised its read-done barrier for the current sample. -/
def stuckChannelEx : Channel Nat :=
  { node := { slots := { in_use := true, read_done := false } :: List.replicate 9 freeSlot
              sink_state := SinkState.BOUND
              sample_counter := 1 }
    buffer := 7 }

/-- Concrete channel used by witnesses: one attached Source (slot 0)
whose read-done barrier is raised, so a publish may proceed. -/
def readyChannelEx : Channel Nat :=
  { node := { slots := { in_use := true, read_done := true } :: List.replicate 9 freeSlot
              sink_state := SinkState.BOUND
              sample_counter := 1 }
    buffer := 7 }

end oat

namespace oat

/-! ### ArucoBoard (embedded from src/positiondetector/ArucoBoard.cpp) -/

/-- Identifier of the predefined dictionary `cv::aruco::DICT_4X4_50`
(values mirror the `cv::aruco::PREDEFINED_DICTIONARY_NAME` enum). -/
def DICT_4X4_50 : Int := 0

/-- `cv::aruco::DICT_4X4_100`. -/
def DICT_4X4_100 : Int := 1

/-- `cv::aruco::DICT_4X4_250`. -/
def DICT_4X4_250 : Int := 2

/-- `cv::aruco::DICT_4X4_1000`. -/
def DICT_4X4_1000 : Int := 3

/-- `cv::aruco::DICT_5X5_50`. -/
def DICT_5X5_50 : Int := 4

/-- `cv::aruco::DICT_5X5_100`. -/
def DICT_5X5_100 : Int := 5

/-- `cv::aruco::DICT_5X5_250`. -/
def DICT_5X5_250 : Int := 6

/-- `cv::aruco::DICT_5X5_1000`. -/
def DICT_5X5_1000 : Int := 7

/-- `cv::aruco::DICT_6X6_50`. -/
def DICT_6X6_50 : Int := 8

/-- `cv::aruco::DICT_6X6_100`. -/
def DICT_6X6_100 : Int := 9

/-- `cv::aruco::DICT_6X6_250`. -/
def DICT_6X6_250 : Int := 10

/-- `cv::aruco::DICT_6X6_1000`. -/
def DICT_6X6_1000 : Int := 11

/-- `cv::aruco::DICT_7X7_50`. -/
def DICT_7X7_50 : Int := 12

/-- `cv::aruco::DICT_7X7_100`. -/
def DICT_7X7_100 : Int := 13

/-- `cv::aruco::DICT_7X7_250`. -/
def DICT_7X7_250 : Int := 14

/-- `cv::aruco::DICT_7X7_1000`. -/
def DICT_7X7_1000 : Int := 15

/-- The `dict_map` of `arucoDictionaryID` (ArucoBoard.cpp lines
406-423). -/
def dict_map : List (String × Int) :=
  [("4X4_50", DICT_4X4_50), ("4X4_100", DICT_4X4_100),
   ("4X4_250", DICT_4X4_250), ("4X4_1000", DICT_4X4_1000),
   ("5X5_50", DICT_5X5_50), ("5X5_100", DICT_5X5_100),
   ("5X5_250", DICT_5X5_250), ("5X5_1000", DICT_5X5_1000),
   ("6X6_50", DICT_6X6_50), ("6X6_100", DICT_6X6_100),
   ("6X6_250", DICT_6X6_250), ("6X6_1000", DICT_6X6_1000),
   ("7X7_50", DICT_7X7_50), ("7X7_100", DICT_7X7_100),
   ("7X7_250", DICT_7X7_250), ("7X7_1000", DICT_7X7_1000)]

/-- The sixteen supported dictionary names. -/
def supportedDictionaryKeys : List String := dict_map.map Prod.fst

/-- `oat::arucoDictionaryID` (ArucoBoard.cpp lines 404-430): looks the
key up in `dict_map`; an absent key (`std::out_of_range` from
`map::at`) is turned into `std::runtime_error("Invalid aruco board
dictionary.")`. -/
def arucoDictionaryID (key : String) : Except String Int :=
  match dict_map.lookup key with
  | some v => Except.ok v
  | none => Except.error "Invalid aruco board dictionary."

/-- Number of markers in a predefined dictionary (`dict->bytesList.rows`
in ArucoBoard.cpp line 146); mirrors the OpenCV predefined dictionaries:
each marker-size family comes in 50/100/250/1000-marker variants, ids
0..15 in that order. -/
def dictSize (id : Int) : Int :=
  if id % 4 = 0 then 50
  else if id % 4 = 1 then 100
  else if id % 4 = 2 then 250
  else 1000

/-- Board-size validation of `ArucoBoard::applyConfiguration`
(ArucoBoard.cpp lines 141-150): a component strictly below 1, or a
product exceeding the selected dictionary's marker count, is rejected. -/
def boardSizeCheck (n0 n1 dictRows : Int) : Except String Unit :=
  if n0 < 1 ∨ n1 < 1 then
    Except.error "Board size values must be greater than one."
  else if n0 * n1 > dictRows then
    Except.error "Board size is too large for selected dictionary."
  else Except.ok ()

/-- Threshold-parameter validation (ArucoBoard.cpp lines 176-186); the
option is not required. -/
def threshCheck : Option (Int × Int × Int) → Except String Unit
  | some (p0, p1, p2) =>
      if p0 < 3 ∨ p1 < 1 ∨ p2 < 1 then
        Except.error "Threshold parameters must be: min >=3, max > min, step >= 1."
      else Except.ok ()
  | none => Except.ok ()

/-- Contour-parameter validation (ArucoBoard.cpp lines 190-199); the
option is not required. -/
def contourCheck : Option (Rat × Rat) → Except String Unit
  | some (c0, c1) =>
      if c0 < 0 ∨ c1 < 0 then
        Except.error "Contour parameters must be positive numbers."
      else Except.ok ()
  | none => Except.ok ()

/-- Distortion-coefficient arity validation (ArucoBoard.cpp lines
246-253); the option is required (`getArray` is called with
required = true; the required-and-absent error is modelled from the
spec since TOMLSanitize.h is not among the visible sources). -/
def distCoeffCheck : Option (List Rat) → Except String Unit
  | some d =>
      if d.length < 5 ∨ d.length > 8 then
        Except.error "Distortion coefficients consist of 5 to 8 values."
      else Except.ok ()
  | none => Except.error "Required configuration value missing: distortion-coeffs"

/-- Modelled from the spec: `oat::config::getNumericValue` with lower
bound 0 and required = true (TOMLSanitize.h is not among the visible
sources): absent or out-of-range required numeric options surface a
fatal configuration error eagerly at startup. -/
def requiredNonNegative (key : String) : Option Rat → Except String Unit
  | some v =>
      if v < 0 then Except.error (String.append "Configuration value out of range: " key)
      else Except.ok ()
  | none => Except.error (String.append "Required configuration value missing: " key)

/-- Modelled from the spec: `oat::config::getArray<double, 9>` with
required = true used for the camera matrix (ArucoBoard.cpp lines
256-268): a present value has exactly nine entries, absence is a fatal
configuration error. -/
def cameraMatrixCheck : Option (List Rat) → Except String Unit
  | some k =>
      if k.length = 9 then Except.ok ()
      else Except.error "Camera matrix consists of 9 values."
  | none => Except.error "Required configuration value missing: camera-matrix"

/-- The configuration options read by `ArucoBoard::applyConfiguration`
(ArucoBoard.cpp lines 128-339), each either present in the
variables-map/config-table or absent.  Values that the source merely
stores without validating are carried but unused. -/
structure ArucoConfig where
  dictionary : Option String
  board_size : Option (Int × Int)
  marker_length : Option Rat
  separation : Option Rat
  thresh_params : Option (Int × Int × Int)
  contour_params : Option (Rat × Rat)
  distortion_coeffs : Option (List Rat)
  camera_matrix : Option (List Rat)

/-- `ArucoBoard::applyConfiguration` (ArucoBoard.cpp lines 128-339),
restricted to its validation effects, in source order: dictionary
lookup first (line 135), then board size (lines 139-150), marker length
and separation (lines 153-169, required, bounded below by 0), threshold
parameters (lines 176-186), contour parameters (lines 190-199),
distortion coefficients (lines 246-253), camera matrix (lines 256-268).
The remaining reads (min-corner-dist, pixels-per-cell, print, tune,
etc.) only store values or perform side effects and raise no
configuration error. -/
def applyConfiguration (cfg : ArucoConfig) : Except String Unit := do
  let dict_key := cfg.dictionary.getD "4X4_50"
  let id ← arucoDictionaryID dict_key
  let _ ← match cfg.board_size with
          | some (n0, n1) => boardSizeCheck n0 n1 (dictSize id)
          | none => Except.error "Required configuration value missing: board-size"
  let _ ← requiredNonNegative "length" cfg.marker_length
  let _ ← requiredNonNegative "separation" cfg.separation
  let _ ← threshCheck cfg.thresh_params
  let _ ← contourCheck cfg.contour_params
  let _ ← distCoeffCheck cfg.distortion_coeffs
  let _ ← cameraMatrixCheck cfg.camera_matrix
  Except.ok ()

/-- Modelled from the spec: component startup order (the component
lifecycle code, Component.h/Component.cpp, is not among the visible
sources): configuration is applied eagerly at startup, and only
afterwards does shared-memory attachment occur (spec section 7:
"validated eagerly at startup and surfaced as a fatal configuration
error before any shared-memory attachment occurs").  The attachment
phase is an arbitrary continuation `attach`. -/
def componentStartup (cfg : ArucoConfig) (attach : Except String Unit) :
    Except String Unit :=
  (applyConfiguration cfg).bind (fun _ => attach)

/-- An everywhere-valid configuration with board size [1, 1] and the
default 4X4_50 dictionary. -/
def boardOneOneConfig : ArucoConfig :=
  { dictionary := some "4X4_50"
    board_size := some (1, 1)
    marker_length := some 1
    separation := some 1
    thresh_params := none
    contour_params := none
    distortion_coeffs := some [0, 0, 0, 0, 0]
    camera_matrix := some [1, 0, 0, 0, 1, 0, 0, 0, 1] }

end oat

namespace oat

/-! ### Decorator (embedded from src/decorator/Decorator.cpp) -/

/-- A 2-D point / vector (`cv::Point2f`; coordinates modelled exactly
as rationals, the claims under proof do not depend on float rounding). -/
abbrev Point2 : Type := Rat × Rat

/-- Componentwise sum of two points. -/
def pAdd (a b : Point2) : Point2 := (a.1 + b.1, a.2 + b.2)

/-- Componentwise difference of two points. -/
def pSub (a b : Point2) : Point2 := (a.1 - b.1, a.2 - b.2)

/-- Scalar multiple of a point. -/
def pScale (k : Rat) (a : Point2) : Point2 := (k * a.1, k * a.2)

/-- The position sample consumed by the Decorator, with the validity
flags and fields its drawing code reads (Decorator.cpp lines 60-79). -/
structure Position2D where
  position_valid : Bool
  position : Point2
  head_direction_valid : Bool
  head_direction : Point2
  velocity_valid : Bool
  velocity : Point2

/-- One primitive drawing operation performed on the image
(`cv::circle` / `cv::line`); the image is modelled as the list of
operations applied to it. -/
inductive DrawCmd where
  | circle (center : Point2) (radius : Rat) (color : Int × Int × Int) (thickness : Int)
  | line (p1 p2 : Point2) (color : Int × Int × Int) (thickness : Int) (ltype : Int)

/-- An image: the pristine frame plus the drawing operations applied to
it so far, in order. -/
abbrev Image : Type := List DrawCmd

/-- The drawing parameters of the Decorator (declared in Decorator.h,
read in Decorator.cpp lines 62, 68-69, 76). -/
structure DecoratorParams where
  position_circle_radius : Rat
  head_dir_line_length : Rat
  velocity_scale_factor : Rat

/-- `Decorator::drawPosition` (Decorator.cpp lines 60-64): a circle at
the position, only when `position_valid`. -/
def drawPosition (d : DecoratorParams) (position : Position2D) (image : Image) : Image :=
  if position.position_valid then
    image ++ [DrawCmd.circle position.position d.position_circle_radius (1, 1, 1) 2]
  else image

/-- `Decorator::drawHeadDirection` (Decorator.cpp lines 66-72): a line
through the position along the head direction, only when both
`position_valid` and `head_direction_valid`. -/
def drawHeadDirection (d : DecoratorParams) (position : Position2D) (image : Image) : Image :=
  if position.position_valid && position.head_direction_valid then
    image ++ [DrawCmd.line
      (pSub position.position (pScale d.head_dir_line_length position.head_direction))
      (pAdd position.position (pScale d.head_dir_line_length position.head_direction))
      (255, 255, 255) 2 8]
  else image

/-- `Decorator::drawVelocity` (Decorator.cpp lines 74-79): a line from
the position along the scaled velocity, only when both `velocity_valid`
and `position_valid`. -/
def drawVelocity (d : DecoratorParams) (position : Position2D) (image : Image) : Image :=
  if position.velocity_valid && position.position_valid then
    image ++ [DrawCmd.line position.position
      (pAdd position.position (pScale d.velocity_scale_factor position.velocity))
      (0, 255, 0) 2 8]
  else image

/-- `Decorator::drawSymbols` (Decorator.cpp lines 53-58): draw the
position circle, then the head-direction line, then the velocity line. -/
def drawSymbols (d : DecoratorParams) (position : Position2D) (image : Image) : Image :=
  drawVelocity d position (drawHeadDirection d position (drawPosition d position image))

end oat

/-! ## Theorems -/

/-- C7: a freshly constructed Node has `source_ref_count` equal to 0 and
`sink_state` equal to UNDEFINED. -/
theorem fresh_node_initial_state :
    oat.source_ref_count oat.freshNode = 0 ∧
    oat.freshNode.sink_state = oat.SinkState.UNDEFINED := by
  decide

/-- C3: starting from a fresh Node, for every N in [0, NUM_SLOTS] the N
sequential `acquireSlot()` calls all succeed; the (NUM_SLOTS+1)-th call
fails with CapacityExceeded; after NUM_SLOTS acquisitions exactly
NUM_SLOTS slots are in use. -/
theorem acquire_slot_capacity :
    (∀ N : Nat, N ≤ oat.NUM_SLOTS → (oat.acquireN N oat.freshNode).isOk = true) ∧
    oat.acquireN (oat.NUM_SLOTS + 1) oat.freshNode =
      Except.error oat.NodeError.CapacityExceeded ∧
    (oat.acquireN oat.NUM_SLOTS oat.freshNode).map oat.source_ref_count =
      Except.ok oat.NUM_SLOTS := by
  refine ⟨?_, by rfl, by rfl⟩
  decide

/-- Witness for C3 at the concrete bound N = NUM_SLOTS. -/
theorem acquire_slot_capacity_witness :
    (oat.acquireN oat.NUM_SLOTS oat.freshNode).isOk = true :=
  acquire_slot_capacity.1 oat.NUM_SLOTS (by decide)

/-- `List.getD` past the end of the list yields the default. -/
theorem getD_oor {α : Type} (l : List α) (i : Nat) (d : α) (h : l.length ≤ i) :
    l.getD i d = d := by
  rw [List.getD_eq_getElem?_getD, List.getElem?_eq_none h]
  rfl

/-- `List.getD` after `List.set` at the same (in-range) index. -/
theorem getD_set_self {α : Type} (l : List α) (i : Nat) (a d : α) (h : i < l.length) :
    (l.set i a).getD i d = a := by
  rw [List.getD_eq_getElem?_getD, List.getElem?_set_self h]
  rfl

/-- `List.getD` after `List.set` at a different index. -/
theorem getD_set_ne {α : Type} (l : List α) (i j : Nat) (a d : α) (h : i ≠ j) :
    (l.set i a).getD j d = l.getD j d := by
  rw [List.getD_eq_getElem?_getD, List.getElem?_set_ne h, ← List.getD_eq_getElem?_getD]

/-- Writing back the element already present leaves the list unchanged. -/
theorem set_getD_self {α : Type} (l : List α) (i : Nat) (d : α) (h : i < l.length) :
    l.set i (l.getD i d) = l := by
  apply List.ext_getElem?
  intro j
  rw [List.getElem?_set]
  split
  · rename_i hij
    subst hij
    rw [List.getD_eq_getElem?_getD, List.getElem?_eq_getElem h]
    simp [h]
  · rfl

/-- `List.getD` commutes with `List.map` when the default is a fixed
point of the mapped function. -/
theorem getD_map_fix {α : Type} (f : α → α) (l : List α) (i : Nat) (d : α) (hf : f d = d) :
    (l.map f).getD i d = f (l.getD i d) := by
  rw [List.getD_eq_getElem?_getD, List.getElem?_map, List.getD_eq_getElem?_getD]
  cases h : l[i]? with
  | none => simp [hf]
  | some a => simp

/-- An index whose `getD` differs from the default is in range. -/
theorem getD_lt_length {α : Type} (l : List α) (i : Nat) (d : α) (h : l.getD i d ≠ d) :
    i < l.length := by
  by_contra hc
  push_neg at hc
  exact h (getD_oor l i d hc)

/-- The index found by `List.findIdx?` is in range and satisfies the
predicate. -/
theorem findIdx?_getD {α : Type} {p : α → Bool} {l : List α} {k : Nat} (d : α)
    (h : l.findIdx? p = some k) : p (l.getD k d) = true ∧ k < l.length := by
  have h2 := List.findIdx?_of_eq_some h
  cases hk : l[k]? with
  | none => rw [hk] at h2; simp at h2
  | some a =>
      rw [hk] at h2
      have hlt : k < l.length := by
        by_contra hc
        push_neg at hc
        rw [List.getElem?_eq_none hc] at hk
        exact Option.noConfusion hk
      refine ⟨?_, hlt⟩
      rw [List.getD_eq_getElem?_getD, hk]
      exact h2

/-- A slot that is `in_use` lies within the slot table. -/
theorem in_use_lt_length {l : List oat.Slot} {i : Nat}
    (h : (l.getD i oat.freeSlot).in_use = true) : i < l.length := by
  apply getD_lt_length l i oat.freeSlot
  intro he
  rw [he] at h
  exact Bool.noConfusion h

/-- A slot that is `in_use` with its read-done barrier down disables
publication. -/
theorem publishEnabled_eq_false {n : oat.Node} {i : Nat}
    (hu : (n.slots.getD i oat.freeSlot).in_use = true)
    (hr : (n.slots.getD i oat.freeSlot).read_done = false) :
    oat.publishEnabled n = false := by
  have hlt : i < n.slots.length := in_use_lt_length hu
  have hmem : n.slots.getD i oat.freeSlot ∈ n.slots := by
    rw [List.getD_eq_getElem?_getD, List.getElem?_eq_getElem hlt]
    exact List.getElem_mem hlt
  unfold oat.publishEnabled
  rw [Bool.eq_false_iff]
  intro hall
  rw [List.all_eq_true] at hall
  have := hall _ hmem
  rw [hu, hr] at this
  exact Bool.noConfusion this

/-- A step that is not an action of the Source holding slot `i`
preserves a pending (unacknowledged) read at slot `i`, the sample
counter and the buffer contents. -/
theorem step_preserves_stuck {T : Type} {c c2 : oat.Channel T} {i : Nat} {s : oat.Step T}
    (hu : (c.node.slots.getD i oat.freeSlot).in_use = true)
    (hr : (c.node.slots.getD i oat.freeSlot).read_done = false)
    (ht : oat.touches i s = false)
    (hs : oat.applyStep c s = some c2) :
    (c2.node.slots.getD i oat.freeSlot).in_use = true ∧
    (c2.node.slots.getD i oat.freeSlot).read_done = false ∧
    c2.node.sample_counter = c.node.sample_counter ∧
    c2.buffer = c.buffer := by
  cases s with
  | publishStep x =>
      exfalso
      simp only [oat.applyStep] at hs
      unfold oat.publish at hs
      rw [publishEnabled_eq_false hu hr] at hs
      simp at hs
  | readStep j =>
      have hij : j ≠ i := by
        simp only [oat.touches] at ht
        simpa using ht
      simp only [oat.applyStep] at hs
      rw [Option.map_eq_some'] at hs
      obtain ⟨r, hr2, hc2⟩ := hs
      simp only [oat.get_value] at hr2
      split at hr2
      · rename_i hcond
        cases hr2
        subst hc2
        refine ⟨?_, ?_, rfl, rfl⟩
        · dsimp only
          rw [getD_set_ne _ j i _ _ hij]
          exact hu
        · dsimp only
          rw [getD_set_ne _ j i _ _ hij]
          exact hr
      · exact Option.noConfusion hr2
  | acquireStep =>
      simp only [oat.applyStep] at hs
      split at hs
      · rename_i p heq
        simp only [oat.acquireSlot] at heq
        split at heq
        · rename_i k hfind
          cases heq
          cases hs
          have hk := (findIdx?_getD oat.freeSlot hfind).1
          have hki : k ≠ i := by
            intro he
            subst he
            rw [hu] at hk
            exact Bool.noConfusion hk
          refine ⟨?_, ?_, rfl, rfl⟩
          · rw [getD_set_ne _ k i _ _ hki]
            exact hu
          · rw [getD_set_ne _ k i _ _ hki]
            exact hr
        · exact Except.noConfusion heq
      · exact Option.noConfusion hs
  | releaseStep j =>
      have hij : j ≠ i := by
        simp only [oat.touches] at ht
        simpa using ht
      simp only [oat.applyStep, oat.releaseSlot] at hs
      cases hs
      refine ⟨?_, ?_, rfl, rfl⟩
      · rw [getD_set_ne _ j i _ _ hij]
        exact hu
      · rw [getD_set_ne _ j i _ _ hij]
        exact hr

/-- Along any trace that contains no action of the Source holding slot
`i`, a pending read at slot `i` freezes the sample counter and the
buffer. -/
theorem reaches_stuck_aux {T : Type} {c c2 : oat.Channel T} {tr : List (oat.Step T)}
    {i : Nat} (hreach : oat.Reaches c tr c2) :
    (c.node.slots.getD i oat.freeSlot).in_use = true →
    (c.node.slots.getD i oat.freeSlot).read_done = false →
    tr.all (fun s => !(oat.touches i s)) = true →
    c2.node.sample_counter = c.node.sample_counter ∧ c2.buffer = c.buffer := by
  induction hreach with
  | nil c => exact fun _ _ _ => ⟨rfl, rfl⟩
  | cons hstep hrest ih =>
      rename_i cs cm ce st trr
      intro hu hr hall
      rw [List.all_cons, Bool.and_eq_true] at hall
      have ht : oat.touches i st = false := by
        simpa using hall.1
      obtain ⟨hu2, hr2, hcnt, hbuf⟩ := step_preserves_stuck hu hr ht hstep
      obtain ⟨hc, hb⟩ := ih hu2 hr2 hall.2
      exact ⟨hc.trans hcnt, hb.trans hbuf⟩

/-- C1: the Sink never reuses (overwrites) the shared buffer for the
current publication while some slot that was in use at publish time has
not raised its read-done barrier; consequently, while one attached
Source (slot `i`) has not acknowledged, `publish` is blocked, and along
any trace free of actions of that Source the channel makes no progress:
the sample counter and the buffer stay what they were. -/
theorem publish_backpressure {T : Type} (c : oat.Channel T) (i : Nat)
    (hu : (c.node.slots.getD i oat.freeSlot).in_use = true)
    (hr : (c.node.slots.getD i oat.freeSlot).read_done = false) :
    (∀ sample, oat.publish c sample = none) ∧
    (∀ tr c2, tr.all (fun s => !(oat.touches i s)) = true →
       oat.Reaches c tr c2 →
       c2.node.sample_counter = c.node.sample_counter ∧ c2.buffer = c.buffer) := by
  constructor
  · intro sample
    unfold oat.publish
    rw [publishEnabled_eq_false hu hr]
    rfl
  · intro tr c2 hall hreach
    exact reaches_stuck_aux hreach hu hr hall

/-- Witness for C1 on a concrete channel whose slot 0 is attached and
unacknowledged. -/
theorem publish_backpressure_witness :
    ((oat.stuckChannelEx.node.slots.getD 0 oat.freeSlot).in_use = true) ∧
    ((oat.stuckChannelEx.node.slots.getD 0 oat.freeSlot).read_done = false) ∧
    ((∀ sample, oat.publish oat.stuckChannelEx sample = none) ∧
     (∀ tr c2, tr.all (fun s => !(oat.touches 0 s)) = true →
        oat.Reaches oat.stuckChannelEx tr c2 →
        c2.node.sample_counter = oat.stuckChannelEx.node.sample_counter ∧
        c2.buffer = oat.stuckChannelEx.buffer)) :=
  ⟨by decide, by decide,
   publish_backpressure oat.stuckChannelEx 0 (by decide) (by decide)⟩

/-- C2: when a publication goes through, every Source attached (slot in
use) before it that calls `get_value` receives exactly the published
payload, and the `sample_counter` it observes is exactly the counter
value of that publication. -/
theorem publish_roundtrip {T : Type} (c : oat.Channel T) (sample : T) (i : Nat)
    (hen : oat.publishEnabled c.node = true)
    (hu : (c.node.slots.getD i oat.freeSlot).in_use = true) :
    ∃ c2, oat.publish c sample = some c2 ∧
      c2.node.sample_counter = c.node.sample_counter + 1 ∧
      c2.buffer = sample ∧
      (oat.get_value c2 i).map (fun r => (r.1, r.2.1)) =
        some (sample, c2.node.sample_counter) := by
  refine ⟨{ node := { c.node with
              sample_counter := c.node.sample_counter + 1
              slots := c.node.slots.map
                (fun s => if s.in_use then { s with read_done := false } else s) }
            buffer := sample }, ?_, rfl, rfl, ?_⟩
  · unfold oat.publish
    rw [hen]
    rfl
  · have hmap := getD_map_fix
      (fun s => if s.in_use then { s with read_done := false } else s)
      c.node.slots i oat.freeSlot (by rfl)
    have hx : ((c.node.slots.map
        (fun s => if s.in_use then { s with read_done := false } else s)).getD
          i oat.freeSlot) = { in_use := true, read_done := false } := by
      rw [hmap]
      simp only [hu, if_true]
    simp only [oat.get_value, hx]
    rfl

/-- Witness for C2 on a concrete channel whose slot 0 is attached and
acknowledged, so publication proceeds. -/
theorem publish_roundtrip_witness :
    (oat.publishEnabled oat.readyChannelEx.node = true) ∧
    ((oat.readyChannelEx.node.slots.getD 0 oat.freeSlot).in_use = true) ∧
    (∃ c2, oat.publish oat.readyChannelEx 42 = some c2 ∧
      c2.node.sample_counter = oat.readyChannelEx.node.sample_counter + 1 ∧
      c2.buffer = 42 ∧
      (oat.get_value c2 0).map (fun r => (r.1, r.2.1)) =
        some (42, c2.node.sample_counter)) :=
  ⟨by decide, by decide,
   publish_roundtrip oat.readyChannelEx 42 0 (by decide) (by decide)⟩

/-- C4: `read_barrier(index)` fails with OutOfRange exactly for
`index < 0` or `index >= active_slot_count`, and for every index with
`0 <= index < active_slot_count` it succeeds, returning the slot's
read-done barrier. -/
theorem read_barrier_range (n : oat.Node) (index : Int) :
    (index < 0 ∨ (oat.source_ref_count n : Int) ≤ index →
       oat.read_barrier n index = Except.error oat.NodeError.OutOfRange) ∧
    (0 ≤ index → index < (oat.source_ref_count n : Int) →
       oat.read_barrier n index =
         Except.ok ((n.slots.getD index.toNat oat.freeSlot).read_done)) := by
  constructor
  · intro h
    unfold oat.read_barrier
    rw [if_pos h]
  · intro h0 hlt
    unfold oat.read_barrier
    rw [if_neg]
    push_neg
    exact ⟨h0, hlt⟩

/-- Witness for C4: on a Node with one attached slot, `read_barrier`
rejects -1 and 1 and succeeds at 0. -/
theorem read_barrier_range_witness :
    oat.read_barrier oat.stuckChannelEx.node (-1) =
      Except.error oat.NodeError.OutOfRange ∧
    oat.read_barrier oat.stuckChannelEx.node 1 =
      Except.error oat.NodeError.OutOfRange ∧
    oat.read_barrier oat.stuckChannelEx.node 0 =
      Except.ok ((oat.stuckChannelEx.node.slots.getD 0 oat.freeSlot).read_done) :=
  ⟨(read_barrier_range oat.stuckChannelEx.node (-1)).1 (by decide),
   (read_barrier_range oat.stuckChannelEx.node 1).1 (by decide),
   (read_barrier_range oat.stuckChannelEx.node 0).2 (by decide) (by decide)⟩

/-- Releasing a slot whose entry is not in use leaves the Node entirely
unchanged (covers never-acquired in-range indices and out-of-range
indices alike). -/
theorem releaseSlot_not_in_use_noop (n : oat.Node) (index : Nat)
    (h : (n.slots.getD index oat.freeSlot).in_use = false) :
    oat.releaseSlot n index = n := by
  unfold oat.releaseSlot
  by_cases hi : index < n.slots.length
  · have hslot : { n.slots.getD index oat.freeSlot with in_use := false } =
        n.slots.getD index oat.freeSlot := by
      cases he : n.slots.getD index oat.freeSlot with
      | mk u r =>
          rw [he] at h
          simp at h
          rw [h]
    rw [hslot, set_getD_self _ _ _ hi]
  · push_neg at hi
    rw [List.set_eq_of_length_le hi]

/-- C5: releasing a slot that was never acquired or was already
released leaves `source_ref_count` unchanged (the whole Node is
unchanged), alters no other slot entry, and release is idempotent in
general; on a fresh Node, `releaseSlot 0` leaves the ref count at 0. -/
theorem release_slot_idempotent_noop (n : oat.Node) (index : Nat) :
    ((n.slots.getD index oat.freeSlot).in_use = false →
       oat.releaseSlot n index = n ∧
       oat.source_ref_count (oat.releaseSlot n index) = oat.source_ref_count n) ∧
    oat.releaseSlot (oat.releaseSlot n index) index = oat.releaseSlot n index ∧
    (∀ j, j ≠ index →
       (oat.releaseSlot n index).slots.getD j oat.freeSlot =
         n.slots.getD j oat.freeSlot) ∧
    oat.source_ref_count (oat.releaseSlot oat.freshNode 0) = 0 := by
  refine ⟨?_, ?_, ?_, by decide⟩
  · intro h
    have he := releaseSlot_not_in_use_noop n index h
    exact ⟨he, by rw [he]⟩
  · apply releaseSlot_not_in_use_noop
    by_cases hi : index < n.slots.length
    · unfold oat.releaseSlot
      dsimp only
      rw [getD_set_self _ _ _ _ hi]
    · push_neg at hi
      unfold oat.releaseSlot
      dsimp only
      rw [List.set_eq_of_length_le hi, getD_oor _ _ _ hi]
      rfl
  · intro j hj
    unfold oat.releaseSlot
    dsimp only
    rw [getD_set_ne _ index j _ _ (fun he => hj he.symm)]

/-- Witness for C5: releasing the never-acquired slot 3 of the example
Node is a no-op. -/
theorem release_slot_idempotent_noop_witness :
    ((oat.stuckChannelEx.node.slots.getD 3 oat.freeSlot).in_use = false) ∧
    (oat.releaseSlot oat.stuckChannelEx.node 3 = oat.stuckChannelEx.node ∧
     oat.source_ref_count (oat.releaseSlot oat.stuckChannelEx.node 3) =
       oat.source_ref_count oat.stuckChannelEx.node) :=
  ⟨by decide, (release_slot_idempotent_noop oat.stuckChannelEx.node 3).1 (by decide)⟩

/-- C6: the `sink_state` state machine: UNDEFINED to BOUND on the first
sink attach; a second attach while BOUND fails with AlreadyBound and
leaves the Node (hence the first sink's binding) unchanged; detach
returns to UNDEFINED; no other operation of the Node or the channel
changes `sink_state`, and `acquireSlot` (source attachment) behaves
identically whatever `sink_state` is. -/
theorem sink_state_machine (n : oat.Node) :
    (n.sink_state = oat.SinkState.UNDEFINED →
       oat.bindSink n = Except.ok { n with sink_state := oat.SinkState.BOUND }) ∧
    (n.sink_state = oat.SinkState.BOUND →
       oat.bindSink n = Except.error oat.NodeError.AlreadyBound) ∧
    (oat.unbindSink n).sink_state = oat.SinkState.UNDEFINED ∧
    (∀ s, oat.acquireSlot { n with sink_state := s } =
       (oat.acquireSlot n).map (fun p => (p.1, { p.2 with sink_state := s }))) ∧
    (∀ i n2, oat.acquireSlot n = Except.ok (i, n2) → n2.sink_state = n.sink_state) ∧
    (∀ i, (oat.releaseSlot n i).sink_state = n.sink_state) ∧
    (∀ (T : Type) (c : oat.Channel T) (x : T) (c2 : oat.Channel T),
       c.node = n → oat.publish c x = some c2 → c2.node.sink_state = n.sink_state) ∧
    (∀ (T : Type) (c : oat.Channel T) (i : Nat) (r : T × Nat × oat.Channel T),
       c.node = n → oat.get_value c i = some r → r.2.2.node.sink_state = n.sink_state) := by
  refine ⟨?_, ?_, rfl, ?_, ?_, fun i => rfl, ?_, ?_⟩
  · intro h
    unfold oat.bindSink
    rw [h]
  · intro h
    unfold oat.bindSink
    rw [h]
  · intro s
    unfold oat.acquireSlot
    dsimp only
    cases hf : n.slots.findIdx? (fun s => !s.in_use) with
    | some k => rfl
    | none => rfl
  · intro i n2 h
    unfold oat.acquireSlot at h
    split at h
    · cases h
      rfl
    · exact Except.noConfusion h
  · intro T c x c2 hc h
    unfold oat.publish at h
    split at h
    · cases h
      rw [← hc]
    · exact Option.noConfusion h
  · intro T c i r hc h
    simp only [oat.get_value] at h
    split at h
    · cases h
      rw [← hc]
    · exact Option.noConfusion h

/-- Witness for C6: on the example bound Node a second `bindSink` fails
with AlreadyBound; on a fresh Node the first `bindSink` succeeds. -/
theorem sink_state_machine_witness :
    oat.bindSink oat.stuckChannelEx.node =
      Except.error oat.NodeError.AlreadyBound ∧
    oat.bindSink oat.freshNode =
      Except.ok { oat.freshNode with sink_state := oat.SinkState.BOUND } :=
  ⟨(sink_state_machine oat.stuckChannelEx.node).2.1 (by decide),
   (sink_state_machine oat.freshNode).1 (by decide)⟩

/-- C9: `drawSymbols` on a position sample whose `position_valid` flag
is false draws nothing: the image is returned unchanged.  The position
circle is drawn exactly when `position_valid`; the head-direction line
additionally requires `head_direction_valid`; the velocity line
additionally requires `velocity_valid`. -/
theorem draw_symbols_requires_valid_position (d : oat.DecoratorParams)
    (pos : oat.Position2D) (image : oat.Image) :
    (pos.position_valid = false → oat.drawSymbols d pos image = image) ∧
    (pos.position_valid = false → oat.drawPosition d pos image = image) ∧
    (pos.position_valid = false ∨ pos.head_direction_valid = false →
       oat.drawHeadDirection d pos image = image) ∧
    (pos.position_valid = false ∨ pos.velocity_valid = false →
       oat.drawVelocity d pos image = image) ∧
    (pos.position_valid = true →
       oat.drawPosition d pos image =
         image ++ [oat.DrawCmd.circle pos.position d.position_circle_radius (1, 1, 1) 2]) := by
  refine ⟨?_, ?_, ?_, ?_, ?_⟩
  · intro h
    unfold oat.drawSymbols oat.drawPosition oat.drawHeadDirection oat.drawVelocity
    rw [h]
    simp
  · intro h
    unfold oat.drawPosition
    rw [h]
    rfl
  · intro h
    unfold oat.drawHeadDirection
    rcases h with h | h <;> rw [h] <;> simp
  · intro h
    unfold oat.drawVelocity
    rcases h with h | h <;> rw [h] <;> simp
  · intro h
    unfold oat.drawPosition
    rw [h]
    rfl

/-- Witness for C9: a concrete invalid-position sample leaves a
concrete image unchanged, and a valid one draws the circle. -/
theorem draw_symbols_requires_valid_position_witness :
    oat.drawSymbols ⟨1, 2, 3⟩
      { position_valid := false
        position := (0, 0)
        head_direction_valid := true
        head_direction := (1, 0)
        velocity_valid := true
        velocity := (0, 1) } [] = [] ∧
    oat.drawPosition ⟨1, 2, 3⟩
      { position_valid := true
        position := (0, 0)
        head_direction_valid := false
        head_direction := (1, 0)
        velocity_valid := false
        velocity := (0, 1) } [] =
      [] ++ [oat.DrawCmd.circle (0, 0) 1 (1, 1, 1) 2] :=
  ⟨(draw_symbols_requires_valid_position ⟨1, 2, 3⟩ _ []).1 rfl,
   (draw_symbols_requires_valid_position ⟨1, 2, 3⟩ _ []).2.2.2.2 rfl⟩

/-- `List.lookup` misses when the key is not among the mapped keys. -/
theorem lookup_eq_none_of_not_mem_keys {β : Type} (l : List (String × β)) (key : String)
    (h : key ∉ l.map Prod.fst) : l.lookup key = none := by
  induction l with
  | nil => rfl
  | cons a tl ih =>
      rw [List.map_cons, List.mem_cons] at h
      push_neg at h
      cases a with
      | mk k v =>
          have hne : (key == k) = false := by
            simpa using h.1
          simp [List.lookup_cons, hne, ih h.2]

/-- C8: `arucoDictionaryID` maps each of the sixteen supported
dictionary names to its matching identifier; every other key fails with
the fatal configuration error "Invalid aruco board dictionary.", and
that error is raised eagerly by `applyConfiguration` so that component
startup fails before the shared-memory attachment phase runs, whatever
that phase would have produced. -/
theorem aruco_dictionary_id_spec :
    oat.arucoDictionaryID "4X4_50" = Except.ok oat.DICT_4X4_50 ∧
    oat.arucoDictionaryID "4X4_100" = Except.ok oat.DICT_4X4_100 ∧
    oat.arucoDictionaryID "4X4_250" = Except.ok oat.DICT_4X4_250 ∧
    oat.arucoDictionaryID "4X4_1000" = Except.ok oat.DICT_4X4_1000 ∧
    oat.arucoDictionaryID "5X5_50" = Except.ok oat.DICT_5X5_50 ∧
    oat.arucoDictionaryID "5X5_100" = Except.ok oat.DICT_5X5_100 ∧
    oat.arucoDictionaryID "5X5_250" = Except.ok oat.DICT_5X5_250 ∧
    oat.arucoDictionaryID "5X5_1000" = Except.ok oat.DICT_5X5_1000 ∧
    oat.arucoDictionaryID "6X6_50" = Except.ok oat.DICT_6X6_50 ∧
    oat.arucoDictionaryID "6X6_100" = Except.ok oat.DICT_6X6_100 ∧
    oat.arucoDictionaryID "6X6_250" = Except.ok oat.DICT_6X6_250 ∧
    oat.arucoDictionaryID "6X6_1000" = Except.ok oat.DICT_6X6_1000 ∧
    oat.arucoDictionaryID "7X7_50" = Except.ok oat.DICT_7X7_50 ∧
    oat.arucoDictionaryID "7X7_100" = Except.ok oat.DICT_7X7_100 ∧
    oat.arucoDictionaryID "7X7_250" = Except.ok oat.DICT_7X7_250 ∧
    oat.arucoDictionaryID "7X7_1000" = Except.ok oat.DICT_7X7_1000 ∧
    (∀ key, key ∉ oat.supportedDictionaryKeys →
       oat.arucoDictionaryID key =
         Except.error "Invalid aruco board dictionary.") ∧
    (∀ (cfg : oat.ArucoConfig) (attach : Except String Unit),
       cfg.dictionary.getD "4X4_50" ∉ oat.supportedDictionaryKeys →
       oat.componentStartup cfg attach =
         Except.error "Invalid aruco board dictionary.") := by
  have hneg : ∀ key, key ∉ oat.supportedDictionaryKeys →
      oat.arucoDictionaryID key = Except.error "Invalid aruco board dictionary." := by
    intro key hk
    unfold oat.arucoDictionaryID
    rw [lookup_eq_none_of_not_mem_keys _ _ hk]
  refine ⟨rfl, rfl, rfl, rfl, rfl, rfl, rfl, rfl, rfl, rfl, rfl, rfl, rfl, rfl, rfl, rfl,
    hneg, ?_⟩
  intro cfg attach hk
  simp only [oat.componentStartup, oat.applyConfiguration]
  rw [hneg _ hk]
  rfl

/-- Witness for C8: the unsupported key "8X8_50" is rejected, also
through component startup, while "4X4_50" is accepted. -/
theorem aruco_dictionary_id_spec_witness :
    oat.arucoDictionaryID "8X8_50" =
      Except.error "Invalid aruco board dictionary." ∧
    oat.componentStartup { oat.boardOneOneConfig with dictionary := some "8X8_50" }
        (Except.ok ()) =
      Except.error "Invalid aruco board dictionary." ∧
    oat.arucoDictionaryID "4X4_50" = Except.ok oat.DICT_4X4_50 :=
  ⟨aruco_dictionary_id_spec.2.2.2.2.2.2.2.2.2.2.2.2.2.2.2.2.1 "8X8_50" (by decide),
   aruco_dictionary_id_spec.2.2.2.2.2.2.2.2.2.2.2.2.2.2.2.2.2
     { oat.boardOneOneConfig with dictionary := some "8X8_50" } (Except.ok ()) (by decide),
   aruco_dictionary_id_spec.1⟩

/-- C10: `applyConfiguration` rejects a configured board size exactly
when some component is strictly less than 1 or the product exceeds the
selected dictionary's marker count; the rejection message for small
components nevertheless reads "greater than one", and the board size
[1, 1] is accepted, both by the check in isolation and by a full
configuration pass. -/
theorem board_size_validation :
    (∀ n0 n1 rows : Int,
       (oat.boardSizeCheck n0 n1 rows = Except.ok () ↔
         1 ≤ n0 ∧ 1 ≤ n1 ∧ n0 * n1 ≤ rows)) ∧
    (∀ n0 n1 rows : Int, n0 < 1 ∨ n1 < 1 →
       oat.boardSizeCheck n0 n1 rows =
         Except.error "Board size values must be greater than one.") ∧
    oat.boardSizeCheck 1 1 (oat.dictSize oat.DICT_4X4_50) = Except.ok () ∧
    oat.applyConfiguration oat.boardOneOneConfig = Except.ok () := by
  refine ⟨?_, ?_, by rfl, by rfl⟩
  · intro n0 n1 rows
    unfold oat.boardSizeCheck
    constructor
    · intro h
      by_cases h1 : n0 < 1 ∨ n1 < 1
      · rw [if_pos h1] at h
        exact absurd h (by simp)
      · rw [if_neg h1] at h
        by_cases h2 : n0 * n1 > rows
        · rw [if_pos h2] at h
          exact absurd h (by simp)
        · push_neg at h1 h2
          exact ⟨h1.1, h1.2, h2⟩
    · rintro ⟨ha, hb, hc⟩
      rw [if_neg, if_neg]
      · exact not_lt.mpr hc
      · push_neg
        exact ⟨ha, hb⟩
  · intro n0 n1 rows h
    unfold oat.boardSizeCheck
    rw [if_pos h]

/-- Witness for C10: a zero-width board is rejected with the
"greater than one" message although [1, 1] itself passes. -/
theorem board_size_validation_witness :
    oat.boardSizeCheck 0 5 50 =
      Except.error "Board size values must be greater than one." ∧
    (oat.boardSizeCheck 1 1 50 = Except.ok () ↔ 1 ≤ (1 : Int) ∧ 1 ≤ (1 : Int) ∧
      (1 : Int) * 1 ≤ 50) :=
  ⟨board_size_validation.2.1 0 5 50 (by decide),
   board_size_validation.1 1 1 50⟩
